import Mathlib

/-!
Verification of the binned log-likelihood-ratio estimator of `funmap`
(`funmap/plotting.py`), shallowly embedded over exact rationals.

Feature values are modelled as `ℚ` (missing values as `none`), a data frame
as a `List Row`, and the numpy histogram calls as counting functions over
lists.  numpy's `density=True` normalisation divides by the in-range sample
count; on an empty sample this is `0/0`, which we model as `none` (NaN).
Python's `int / int` division raises `ZeroDivisionError` on a zero divisor;
the ratio computation is therefore additionally modelled as an
`Except String` value capturing the raised exception.
-/

namespace Funmap

/-- A row of `feature_df` restricted to the columns the LLR plots use:
the class label (`Class` column) and the RNA / protein feature columns,
whose values may be missing (`none` models `NaN`). -/
structure Row where
  cls : ℕ
  rna : Option ℚ
  pro : Option ℚ
deriving DecidableEq, Repr

/-- Feature-type tag: `'CC'` (correlation coefficient) or `'MR'` (mutual rank). -/
inductive FeatureType
  | CC
  | MR
deriving DecidableEq, Repr

/-- `data_range = {'CC': (-1, 1), 'MR': (0, 1)}` (plotting.py lines 194, 253). -/
def data_range : FeatureType → ℚ × ℚ
  | .CC => (-1, 1)
  | .MR => (0, 1)

/-- Bin index of a value in a fixed-range histogram with `n` equal-width bins,
following numpy: values outside `[lo, hi]` are excluded (`none`), interior
bins are half-open, and the last bin is closed at `hi`. -/
def binIdx (lo hi : ℚ) (n : ℕ) (x : ℚ) : Option ℕ :=
  if lo ≤ x ∧ x ≤ hi ∧ 0 < n ∧ lo < hi then
    some (min (Int.toNat ⌊(x - lo) * n / (hi - lo)⌋) (n - 1))
  else none

/-- Cell `(i, j)` of `np.histogram2d(xs, ys, bins=n, range=[xr, yr])`
(raw counts, `density=False`). -/
def histogram2dCount (xr yr : ℚ × ℚ) (n : ℕ) (pts : List (ℚ × ℚ)) (i j : ℕ) : ℕ :=
  pts.countP fun p =>
    decide (binIdx xr.1 xr.2 n p.1 = some i) && decide (binIdx yr.1 yr.2 n p.2 = some j)

/-- Whether a point falls inside the 2-D histogram range (both coordinates binned). -/
def inRange2 (xr yr : ℚ × ℚ) (n : ℕ) (p : ℚ × ℚ) : Bool :=
  (binIdx xr.1 xr.2 n p.1).isSome && (binIdx yr.1 yr.2 n p.2).isSome

/-- `hist.sum()` of the raw-count 2-D histogram: the number of sample points
inside the range.  numpy's `density=True` normalises by this total. -/
def histTotal2d (xr yr : ℚ × ℚ) (n : ℕ) (pts : List (ℚ × ℚ)) : ℕ :=
  pts.countP (inRange2 xr yr n)

/-- Cell `(i, j)` of `np.histogram2d(..., density=True)`: the raw count divided
by `bin_area * total`.  When the in-range total is `0` numpy computes `0/0`,
i.e. every cell is NaN — modelled as `none`. -/
def histogram2dDensity (xr yr : ℚ × ℚ) (n : ℕ) (pts : List (ℚ × ℚ)) (i j : ℕ) :
    Option ℚ :=
  if histTotal2d xr yr n pts = 0 then none
  else some ((histogram2dCount xr yr n pts i j : ℚ) * n * n /
    ((xr.2 - xr.1) * (yr.2 - yr.1) * (histTotal2d xr yr n pts : ℚ)))

/-- Bin `i` of `np.histogram(xs, bins=n, range=r)` (raw counts). -/
def histogram1dCount (r : ℚ × ℚ) (n : ℕ) (xs : List ℚ) (i : ℕ) : ℕ :=
  xs.countP fun x => decide (binIdx r.1 r.2 n x = some i)

/-- In-range sample total of the 1-D histogram. -/
def histTotal1d (r : ℚ × ℚ) (n : ℕ) (xs : List ℚ) : ℕ :=
  xs.countP fun x => (binIdx r.1 r.2 n x).isSome

/-- Bin `i` of `np.histogram(..., density=True)` / `ax.hist(..., density=True)`:
count divided by `bin_width * total`; all-NaN (`none`) when the total is `0`. -/
def histogram1dDensity (r : ℚ × ℚ) (n : ℕ) (xs : List ℚ) (i : ℕ) : Option ℚ :=
  if histTotal1d r n xs = 0 then none
  else some ((histogram1dCount r n xs i : ℚ) * n / ((r.2 - r.1) * (histTotal1d r n xs : ℚ)))

/-- The estimation part of `plot_1d_llr` (plotting.py lines 190-198): select the
single feature column, `dropna()` it, and hist the remaining values with
`density=True` over `data_range[feature_type]`. -/
def plot_1d_llr (feature_df : List Row) (feature : Row → Option ℚ)
    (feature_type : FeatureType) (n_bins : ℕ) (i : ℕ) : Option ℚ :=
  histogram1dDensity (data_range feature_type) n_bins (feature_df.filterMap feature) i

/-- `df = feature_df.loc[:, ['Class', rna_feature, pro_feature]]; df = df.dropna()`
(plotting.py lines 256-257, 267-268): row-wise removal of rows with a missing
value in either feature column. -/
def dropna2 (feature_df : List Row) : List Row :=
  feature_df.filter fun r => r.rna.isSome && r.pro.isSome

/-- `cur_df = df.loc[df['Class'] == label, [rna_feature, pro_feature]]`
(plotting.py lines 258, 269): the class partition, taken after `dropna()`. -/
def classRows (feature_df : List Row) (label : ℕ) : List Row :=
  (dropna2 feature_df).filter fun r => r.cls == label

/-- The `(rna, pro)` value pair of a row, when both are present. -/
def rowPt (r : Row) : Option (ℚ × ℚ) :=
  match r.rna, r.pro with
  | some a, some b => some (a, b)
  | _, _ => none

/-- The `(rna, pro)` sample points of one class partition, as fed to
`np.histogram2d`. -/
def classPts (feature_df : List Row) (label : ℕ) : List (ℚ × ℚ) :=
  (classRows feature_df label).filterMap rowPt

/-- `np.array([data_range[feature_type], data_range[feature_type]])`
(plotting.py lines 261-262, 273-274): the same range for both axes. -/
def range_pair (feature_type : FeatureType) : (ℚ × ℚ) × (ℚ × ℚ) :=
  (data_range feature_type, data_range feature_type)

/-- `cnt[label] = cur_df.shape[0]` (plotting.py line 270). -/
def cnt (feature_df : List Row) (label : ℕ) : ℕ :=
  (classRows feature_df label).length

/-- `cnt_pos_neg[label] = hist` — the raw-count 2-D histogram of one class
(plotting.py lines 271-275). -/
def cnt_pos_neg (feature_df : List Row) (ft : FeatureType) (n_bins : ℕ)
    (label : ℕ) (i j : ℕ) : ℕ :=
  histogram2dCount (range_pair ft).1 (range_pair ft).2 n_bins
    (classPts feature_df label) i j

/-- `hist_density` — the `density=True` 2-D histogram of one class
(plotting.py lines 259-263). -/
def hist_density (feature_df : List Row) (ft : FeatureType) (n_bins : ℕ)
    (label : ℕ) (i j : ℕ) : Option ℚ :=
  histogram2dDensity (range_pair ft).1 (range_pair ft).2 n_bins
    (classPts feature_df label) i j

/-- `np.max(hist_density)`: `none` for NaN (any NaN cell poisons the max) or for
an empty cell list; the callers always pass `n_bins = 20 > 0`. -/
def npMax2d (n : ℕ) (g : ℕ → ℕ → Option ℚ) : Option ℚ :=
  if ((List.range n).flatMap fun i => (List.range n).map (g i)).all Option.isSome then
    (((List.range n).flatMap fun i => (List.range n).map (g i)).filterMap id).max?
  else none

/-- Python's binary `max(a, x)` when `x` may be NaN: every comparison against
NaN is false, so the first argument is kept. -/
def pyMax (a : ℚ) : Option ℚ → ℚ
  | none => a
  | some b => max a b

/-- `max_density = -1; for label in [0, 1]: max_density = max(max_density,
np.max(hist_density))` (plotting.py lines 251-264). -/
def max_density (feature_df : List Row) (ft : FeatureType) (n_bins : ℕ) : ℚ :=
  [0, 1].foldl
    (fun acc label => pyMax acc (npMax2d n_bins (hist_density feature_df ft n_bins label)))
    (-1)

/-- `llr_vals = ((cnt_pos_neg[1] + 1)/(cnt_pos_neg[0] + cnt[0]/cnt[1]))/(cnt[1]/cnt[0])`
(plotting.py line 285), cell by cell, in exact arithmetic. -/
def llr_vals (feature_df : List Row) (ft : FeatureType) (n_bins : ℕ) (i j : ℕ) : ℚ :=
  ((cnt_pos_neg feature_df ft n_bins 1 i j + 1) /
      (cnt_pos_neg feature_df ft n_bins 0 i j + (cnt feature_df 0 : ℚ) / (cnt feature_df 1))) /
    ((cnt feature_df 1 : ℚ) / (cnt feature_df 0))

/-- Line 285 with Python's division semantics made explicit: `cnt[0]/cnt[1]`
raises `ZeroDivisionError` when `cnt[1] == 0`, and otherwise the trailing
`/(cnt[1]/cnt[0])` raises it when `cnt[0] == 0`; only with both classes
non-empty is the grid produced. -/
def llr_vals_run (feature_df : List Row) (ft : FeatureType) (n_bins : ℕ) :
    Except String (ℕ → ℕ → ℚ) :=
  if cnt feature_df 1 = 0 then .error "ZeroDivisionError"
  else if cnt feature_df 0 = 0 then .error "ZeroDivisionError"
  else .ok (llr_vals feature_df ft n_bins)

/-- Whether a row's feature pair lands in histogram cell `(i, j)`; `false` when
either feature is missing. -/
def rowInCell (ft : FeatureType) (n : ℕ) (i j : ℕ) (r : Row) : Bool :=
  match r.rna, r.pro with
  | some a, some b =>
      decide (binIdx (data_range ft).1 (data_range ft).2 n a = some i) &&
      decide (binIdx (data_range ft).1 (data_range ft).2 n b = some j)
  | _, _ => false

/-- Independent restatement of the per-class total: the number of rows of the
original table with both features present and the given class label. -/
def classTotal (feature_df : List Row) (label : ℕ) : ℕ :=
  feature_df.countP fun r => (r.rna.isSome && r.pro.isSome) && r.cls == label

/-- Independent restatement of the per-class raw histogram cell: the number of
rows of the original table with the given label whose feature pair lands in
cell `(i, j)`. -/
def classCell (feature_df : List Row) (ft : FeatureType) (n : ℕ)
    (label i j : ℕ) : ℕ :=
  feature_df.countP fun r => r.cls == label && rowInCell ft n i j r

/-- The 1-D contract as the specification words it (for comparison with
`plot_1d_llr`): split the input by label, bin each class independently over
the same range with `density=True`, and return the pair
`(density_pos, density_neg)`. -/
def marginalSpec (feature_df : List Row) (feature : Row → Option ℚ)
    (ft : FeatureType) (n_bins : ℕ) : (ℕ → Option ℚ) × (ℕ → Option ℚ) :=
  (histogram1dDensity (data_range ft) n_bins
      ((feature_df.filter fun r => r.cls == 1).filterMap feature),
    histogram1dDensity (data_range ft) n_bins
      ((feature_df.filter fun r => r.cls == 0).filterMap feature))

/-- Per-class 1-D raw histogram counts (used to state what `plot_1d_llr`
actually computes: the pooled histogram of both classes). -/
def class1dCount (feature_df : List Row) (feature : Row → Option ℚ)
    (ft : FeatureType) (n : ℕ) (label i : ℕ) : ℕ :=
  ((feature_df.filter fun r => r.cls == label).filterMap feature).countP
    fun x => decide (binIdx (data_range ft).1 (data_range ft).2 n x = some i)

/-! Concrete data frames used as evaluation inputs. -/

/-- Three rows: one of each class with both features, plus a class-1 row with a
missing protein value. -/
def dfMixed : List Row :=
  [⟨0, some (1/4), some (1/4)⟩, ⟨1, some (3/4), some (3/4)⟩, ⟨1, some (1/4), none⟩]

/-- A data frame whose class-1 partition is empty. -/
def dfNoPos : List Row := [⟨0, some 0, some 0⟩]

/-- A data frame whose class-0 partition is empty. -/
def dfNoNeg : List Row := [⟨1, some 0, some 0⟩]

/-- One class-0 and one class-1 row with distinct feature values. -/
def dfTwoLabels : List Row :=
  [⟨0, some (1/4), some 0⟩, ⟨1, some (3/4), some 0⟩]

/-- Two classes with identical feature-value distributions. -/
def dfBalanced : List Row :=
  [⟨0, some (1/2), some (1/2)⟩, ⟨1, some (1/2), some (1/2)⟩]

/-! Theorems. -/

/-- The code's per-class row count (`cur_df.shape[0]`) equals the count of rows
of the original table with both features present and the matching label. -/
theorem cnt_eq_classTotal (df : List Row) (l : ℕ) : cnt df l = classTotal df l := by
  have h : (fun r : Row => (r.cls == l) && (r.rna.isSome && r.pro.isSome))
      = fun r : Row => (r.rna.isSome && r.pro.isSome) && (r.cls == l) :=
    funext fun r => Bool.and_comm _ _
  unfold cnt classTotal classRows dropna2
  rw [← List.countP_eq_length_filter, List.countP_filter, h]

/-- The code's per-class raw histogram cell equals the count of rows of the
original table with the matching label whose feature pair lands in the cell. -/
theorem cnt_pos_neg_eq_classCell (df : List Row) (ft : FeatureType) (n l i j : ℕ) :
    cnt_pos_neg df ft n l i j = classCell df ft n l i j := by
  unfold cnt_pos_neg classCell histogram2dCount classPts classRows dropna2 range_pair
  rw [List.countP_filterMap, List.countP_filter, List.countP_filter]
  refine List.countP_congr fun r _ => ?_
  cases hr : r.rna <;> cases hp : r.pro <;>
    simp [rowPt, rowInCell, hr, hp, Bool.and_comm, Bool.and_left_comm, Bool.and_assoc]

/-- C1: with both class partitions non-empty, the pre-log ratio grid equals,
cell for cell, `(c1[i,j] + 1) / (c0[i,j] + n0/n1) / (n1/n0)`, where `c1`, `c0`
are the raw 2-D histogram counts of class 1 and class 0 over the shared range
and `n1`, `n0` are the per-class row totals after row-wise missing-value
filtering. -/
theorem llr_vals_formula (df : List Row) (ft : FeatureType) (n i j : ℕ)
    (h0 : 0 < classTotal df 0) (h1 : 0 < classTotal df 1) :
    llr_vals df ft n i j =
      ((classCell df ft n 1 i j + 1) /
          (classCell df ft n 0 i j + (classTotal df 0 : ℚ) / (classTotal df 1))) /
        ((classTotal df 1 : ℚ) / (classTotal df 0)) := by
  unfold llr_vals
  rw [cnt_eq_classTotal df 0, cnt_eq_classTotal df 1,
    cnt_pos_neg_eq_classCell df ft n 1 i j, cnt_pos_neg_eq_classCell df ft n 0 i j]

/-- Witness for `llr_vals_formula` at a concrete input. -/
theorem llr_vals_formula_witness :
    0 < classTotal dfMixed 0 ∧ 0 < classTotal dfMixed 1 ∧
    llr_vals dfMixed .MR 2 1 1 =
      ((classCell dfMixed .MR 2 1 1 1 + 1) /
          (classCell dfMixed .MR 2 0 1 1 + (classTotal dfMixed 0 : ℚ) / (classTotal dfMixed 1))) /
        ((classTotal dfMixed 1 : ℚ) / (classTotal dfMixed 0)) :=
  ⟨by decide, by decide, llr_vals_formula dfMixed .MR 2 1 1 (by decide) (by decide)⟩

/-- C2: with both class partitions non-empty, every cell of the pre-log ratio
grid is strictly positive, so its natural log is a genuine logarithm in every
cell (no `NaN`, no `±∞` in the real-number semantics): `exp (log ratio) = ratio`. -/
theorem llr_vals_pos (df : List Row) (ft : FeatureType) (n i j : ℕ)
    (h0 : 0 < cnt df 0) (h1 : 0 < cnt df 1) :
    0 < llr_vals df ft n i j ∧
      Real.exp (Real.log ((llr_vals df ft n i j : ℚ) : ℝ))
        = ((llr_vals df ft n i j : ℚ) : ℝ) := by
  have hq0 : (0 : ℚ) < (cnt df 0 : ℚ) := by exact_mod_cast h0
  have hq1 : (0 : ℚ) < (cnt df 1 : ℚ) := by exact_mod_cast h1
  have hpos : 0 < llr_vals df ft n i j := by
    unfold llr_vals
    have hA : (0 : ℚ) < (cnt_pos_neg df ft n 1 i j : ℚ) + 1 := by positivity
    have hB : (0 : ℚ) < (cnt_pos_neg df ft n 0 i j : ℚ) + (cnt df 0 : ℚ) / (cnt df 1 : ℚ) :=
      add_pos_of_nonneg_of_pos (by positivity) (div_pos hq0 hq1)
    exact div_pos (div_pos hA hB) (div_pos hq1 hq0)
  exact ⟨hpos, Real.exp_log (by exact_mod_cast hpos)⟩

/-- Witness for `llr_vals_pos` at a concrete input. -/
theorem llr_vals_pos_witness :
    0 < cnt dfMixed 0 ∧ 0 < cnt dfMixed 1 ∧
      (0 < llr_vals dfMixed .MR 2 0 0 ∧
        Real.exp (Real.log ((llr_vals dfMixed .MR 2 0 0 : ℚ) : ℝ))
          = ((llr_vals dfMixed .MR 2 0 0 : ℚ) : ℝ)) :=
  ⟨by decide, by decide, llr_vals_pos dfMixed .MR 2 0 0 (by decide) (by decide)⟩

/-- C5: in the 2-D computation, rows with a missing value in either feature
column are dropped row-wise before the rows are partitioned by class: the
class partition equally results from partitioning first and dropping after
(the two classes share one filtered row set), and a row belongs to a class
partition exactly when it is a table row with the matching label and both
features present — so a row missing only one feature is in neither partition
and in neither feature's counts. -/
theorem classRows_spec (df : List Row) (l : ℕ) :
    classRows df l
        = (df.filter fun r => r.cls == l).filter (fun r => r.rna.isSome && r.pro.isSome) ∧
    (∀ r : Row, r ∈ classRows df l ↔ r ∈ df ∧ r.cls = l ∧ r.rna.isSome ∧ r.pro.isSome) := by
  constructor
  · have h : (fun r : Row => (r.cls == l) && (r.rna.isSome && r.pro.isSome))
        = fun r : Row => (r.rna.isSome && r.pro.isSome) && (r.cls == l) :=
      funext fun r => Bool.and_comm _ _
    unfold classRows dropna2
    rw [List.filter_filter, List.filter_filter, h]
  · intro r
    unfold classRows dropna2
    simp only [List.mem_filter, Bool.and_eq_true, beq_iff_eq]
    tauto

/-- C6: if the two classes have identical raw count grids and equal positive
totals, every cell of the pre-log ratio grid is `1` and every cell of the
log-ratio grid is `0`. -/
theorem llr_identical_classes (df : List Row) (ft : FeatureType) (n : ℕ)
    (hc : ∀ i j, cnt_pos_neg df ft n 1 i j = cnt_pos_neg df ft n 0 i j)
    (he : cnt df 1 = cnt df 0) (h0 : 0 < cnt df 0) :
    ∀ i j, llr_vals df ft n i j = 1 ∧
      Real.log ((llr_vals df ft n i j : ℚ) : ℝ) = 0 := by
  intro i j
  have hm : ((cnt df 0 : ℚ)) ≠ 0 := Nat.cast_ne_zero.mpr h0.ne'
  have hone : llr_vals df ft n i j = 1 := by
    unfold llr_vals
    rw [hc i j, he, div_self hm]
    have hA : ((cnt_pos_neg df ft n 0 i j : ℚ)) + 1 ≠ 0 := by positivity
    rw [div_one, div_self hA]
  refine ⟨hone, ?_⟩
  rw [hone]
  simp

/-- Witness for `llr_identical_classes` at a concrete input. -/
theorem llr_identical_classes_witness :
    llr_vals dfBalanced .CC 2 0 0 = 1 ∧
      Real.log ((llr_vals dfBalanced .CC 2 0 0 : ℚ) : ℝ) = 0 :=
  llr_identical_classes dfBalanced .CC 2 (fun _ _ => rfl) rfl (by decide) 0 0

/-- C10: the per-class totals, per-class count grids and pre-log ratio grid are
invariant under any permutation of the input rows. -/
theorem llr_perm_invariant (df df' : List Row) (ft : FeatureType) (n : ℕ)
    (h : df.Perm df') :
    (∀ l, cnt df l = cnt df' l) ∧
    (∀ l i j, cnt_pos_neg df ft n l i j = cnt_pos_neg df' ft n l i j) ∧
    (∀ i j, llr_vals df ft n i j = llr_vals df' ft n i j) := by
  have hrows : ∀ l, (classRows df l).Perm (classRows df' l) := by
    intro l
    unfold classRows dropna2
    exact (h.filter _).filter _
  have hcnt : ∀ l, cnt df l = cnt df' l := fun l => (hrows l).length_eq
  have hcell : ∀ l i j, cnt_pos_neg df ft n l i j = cnt_pos_neg df' ft n l i j := by
    intro l i j
    unfold cnt_pos_neg histogram2dCount classPts
    exact ((hrows l).filterMap _).countP_eq _
  refine ⟨hcnt, hcell, fun i j => ?_⟩
  unfold llr_vals
  rw [hcnt 0, hcnt 1, hcell 1 i j, hcell 0 i j]

/-- Witness for `llr_perm_invariant` at a concrete input (a reversal). -/
theorem llr_perm_invariant_witness :
    cnt dfMixed 1 = cnt dfMixed.reverse 1 ∧
      llr_vals dfMixed .MR 2 0 0 = llr_vals dfMixed.reverse .MR 2 0 0 :=
  ⟨(llr_perm_invariant dfMixed dfMixed.reverse .MR 2 (dfMixed.reverse_perm.symm)).1 1,
    (llr_perm_invariant dfMixed dfMixed.reverse .MR 2 (dfMixed.reverse_perm.symm)).2.2 0 0⟩

/-- C3 counterexample: with the class-1 partition empty, the ratio computation
raises Python's `ZeroDivisionError` (from the integer division `cnt[0]/cnt[1]`),
not an `EmptyClassError` — no such error type exists in the code. -/
theorem llr_empty_class_not_emptyClassError :
    llr_vals_run dfNoPos .CC 20 = Except.error "ZeroDivisionError" ∧
    llr_vals_run dfNoPos .CC 20 ≠ Except.error "EmptyClassError" := by
  have h : llr_vals_run dfNoPos .CC 20 = Except.error "ZeroDivisionError" := rfl
  refine ⟨h, ?_⟩
  rw [h]
  simp

/-- C3 (amended): with either class partition empty, the ratio computation
raises `ZeroDivisionError` and never returns a grid; it does not silently
produce a non-finite ratio. -/
theorem llr_empty_class_raises (df : List Row) (ft : FeatureType) (n : ℕ)
    (h : cnt df 0 = 0 ∨ cnt df 1 = 0) :
    llr_vals_run df ft n = Except.error "ZeroDivisionError" := by
  unfold llr_vals_run
  rcases h with h | h
  · by_cases h1 : cnt df 1 = 0 <;> simp [h, h1]
  · simp [h]

/-- Witness for `llr_empty_class_raises` at a concrete input. -/
theorem llr_empty_class_raises_witness :
    llr_vals_run dfNoNeg .CC 20 = Except.error "ZeroDivisionError" :=
  llr_empty_class_raises dfNoNeg .CC 20 (Or.inl (by decide))

/-- C7 counterexample: on empty input the normalized (`density=True`) 2-D grid
cell is NaN (`0/0`, modelled `none`), not zero. -/
theorem histogram2dDensity_empty_nan :
    histogram2dDensity (data_range .CC) (data_range .CC) 2 ([] : List (ℚ × ℚ)) 0 0 = none ∧
    histogram2dDensity (data_range .CC) (data_range .CC) 2 ([] : List (ℚ × ℚ)) 0 0 ≠ some 0 := by
  exact ⟨rfl, by decide⟩

/-- C7 (amended): binning an empty sample raises no error; the raw-count grid
is all-zero, while the normalized variant's cells are NaN (`none`), in both the
1-D and the 2-D case. -/
theorem histogram_empty_input (xr yr : ℚ × ℚ) (n i j : ℕ) :
    histogram2dCount xr yr n [] i j = 0 ∧ histogram2dDensity xr yr n [] i j = none ∧
    histogram1dCount xr n [] i = 0 ∧ histogram1dDensity xr n [] i = none := by
  refine ⟨rfl, ?_, rfl, ?_⟩ <;>
    simp [histogram2dDensity, histogram1dDensity, histTotal2d, histTotal1d]

/-- C8: the bin range is determined solely by the feature-type tag — `CC`
features use `[-1, 1]` and `MR` features `[0, 1]` — and one computation uses
the identical range for both axes of the 2-D grid and for every class, in the
count grids, the density grids and the 1-D histogram. -/
theorem range_policy :
    data_range .CC = (-1, 1) ∧ data_range .MR = (0, 1) ∧
    (∀ ft, range_pair ft = (data_range ft, data_range ft)) ∧
    (∀ df ft n l i j, cnt_pos_neg df ft n l i j
        = histogram2dCount (data_range ft) (data_range ft) n (classPts df l) i j) ∧
    (∀ df ft n l i j, hist_density df ft n l i j
        = histogram2dDensity (data_range ft) (data_range ft) n (classPts df l) i j) ∧
    (∀ df feature ft n i, plot_1d_llr df feature ft n i
        = histogram1dDensity (data_range ft) n (df.filterMap feature) i) :=
  ⟨rfl, rfl, fun _ => rfl, fun _ _ _ _ _ _ => rfl, fun _ _ _ _ _ _ => rfl,
    fun _ _ _ _ _ => rfl⟩

/-- C4 counterexample: the 1-D computation does not return class-conditional
density grids.  At a concrete input its single pooled grid differs from both
the positive-class and the negative-class density grids of the specification's
`marginal` contract. -/
theorem plot_1d_llr_not_marginal :
    plot_1d_llr dfTwoLabels (fun r => r.rna) .MR 2 1 = some 1 ∧
    (marginalSpec dfTwoLabels (fun r => r.rna) .MR 2).1 1 = some 2 ∧
    plot_1d_llr dfTwoLabels (fun r => r.rna) .MR 2 1
      ≠ (marginalSpec dfTwoLabels (fun r => r.rna) .MR 2).1 1 ∧
    plot_1d_llr dfTwoLabels (fun r => r.rna) .MR 2 0
      ≠ (marginalSpec dfTwoLabels (fun r => r.rna) .MR 2).2 0 := by
  with_unfolding_all decide

/-- Counting rows of a two-class table splits into the two class filters. -/
theorem countP_split_label (df : List Row) (q : Row → Bool)
    (hlab : ∀ r ∈ df, r.cls = 0 ∨ r.cls = 1) :
    df.countP q
      = ((df.filter fun r => r.cls == 0).countP q)
        + ((df.filter fun r => r.cls == 1).countP q) := by
  induction df with
  | nil => rfl
  | cons r t ih =>
    have hr := hlab r (List.mem_cons_self r t)
    have ih' := ih fun x hx => hlab x (List.mem_cons_of_mem r hx)
    by_cases hq : q r <;> rcases hr with h | h <;>
      simp [List.filter_cons, List.countP_cons, h, hq, ih'] <;> omega

/-- C4 (amended): the 1-D estimator does not split by class label.  It drops
the missing values of the single feature column and bins all remaining rows —
both classes pooled — over the fixed feature-type range, returning one density
grid whose cells are the pooled class counts normalized by the pooled total. -/
theorem plot_1d_llr_pooled (df : List Row) (feature : Row → Option ℚ)
    (ft : FeatureType) (n i : ℕ)
    (hlab : ∀ r ∈ df, r.cls = 0 ∨ r.cls = 1)
    (hs : histTotal1d (data_range ft) n (df.filterMap feature) ≠ 0) :
    plot_1d_llr df feature ft n i =
      some (((class1dCount df feature ft n 0 i + class1dCount df feature ft n 1 i : ℕ) : ℚ)
        * n / (((data_range ft).2 - (data_range ft).1)
          * (histTotal1d (data_range ft) n (df.filterMap feature) : ℚ))) := by
  have hsplit : histogram1dCount (data_range ft) n (df.filterMap feature) i
      = class1dCount df feature ft n 0 i + class1dCount df feature ft n 1 i := by
    unfold histogram1dCount class1dCount
    rw [List.countP_filterMap, countP_split_label df _ hlab]
    congr 1 <;> rw [List.countP_filterMap]
  unfold plot_1d_llr histogram1dDensity
  rw [if_neg hs, hsplit]

/-- Witness for `plot_1d_llr_pooled` at a concrete input. -/
theorem plot_1d_llr_pooled_witness :
    (∀ r ∈ dfTwoLabels, r.cls = 0 ∨ r.cls = 1) ∧
    histTotal1d (data_range .MR) 2 (dfTwoLabels.filterMap fun r => r.rna) ≠ 0 ∧
    plot_1d_llr dfTwoLabels (fun r => r.rna) .MR 2 0 =
      some (((class1dCount dfTwoLabels (fun r => r.rna) .MR 2 0 0
            + class1dCount dfTwoLabels (fun r => r.rna) .MR 2 1 0 : ℕ) : ℚ)
        * 2 / (((data_range .MR).2 - (data_range .MR).1)
          * (histTotal1d (data_range .MR) 2 (dfTwoLabels.filterMap fun r => r.rna) : ℚ))) :=
  ⟨by decide, by with_unfolding_all decide,
    plot_1d_llr_pooled dfTwoLabels (fun r => r.rna) .MR 2 0 (by decide)
      (by with_unfolding_all decide)⟩

/-- Membership in the flattened cell list of an `n × n` grid. -/
theorem mem_gridCells {n : ℕ} {g : ℕ → ℕ → Option ℚ} {c : Option ℚ} :
    (c ∈ (List.range n).flatMap fun i => (List.range n).map (g i))
      ↔ ∃ i, i < n ∧ ∃ j, j < n ∧ g i j = c := by
  simp [List.mem_flatMap, List.mem_map, List.mem_range]

/-- A value returned by `npMax2d` is attained at some grid cell. -/
theorem npMax2d_attained {n : ℕ} {g : ℕ → ℕ → Option ℚ} {m : ℚ}
    (h : npMax2d n g = some m) :
    ∃ i, i < n ∧ ∃ j, j < n ∧ g i j = some m := by
  unfold npMax2d at h
  split_ifs at h with hall
  have hmem := List.max?_mem (fun a b => max_choice a b) h
  rw [List.mem_filterMap] at hmem
  obtain ⟨c, hc, hid⟩ := hmem
  rw [id_eq] at hid
  subst hid
  exact mem_gridCells.mp hc

/-- A value returned by `npMax2d` bounds every defined grid cell. -/
theorem npMax2d_le {n : ℕ} {g : ℕ → ℕ → Option ℚ} {m q : ℚ} {i j : ℕ}
    (h : npMax2d n g = some m) (hi : i < n) (hj : j < n) (hq : g i j = some q) :
    q ≤ m := by
  unfold npMax2d at h
  split_ifs at h with hall
  have hqmem : q ∈ ((List.range n).flatMap fun i => (List.range n).map (g i)).filterMap id :=
    List.mem_filterMap.mpr ⟨some q, mem_gridCells.mpr ⟨i, hi, j, hj, hq⟩, rfl⟩
  exact (List.max?_le_iff (fun a b c => max_le_iff) h).1 (le_refl m) q hqmem

/-- `npMax2d` is defined whenever the grid is non-trivial and has no NaN cell. -/
theorem npMax2d_isSome {n : ℕ} {g : ℕ → ℕ → Option ℚ} (hn : 0 < n)
    (hall : ∀ i j, (g i j).isSome) : ∃ m, npMax2d n g = some m := by
  unfold npMax2d
  rw [if_pos]
  · obtain ⟨q, hq⟩ := Option.isSome_iff_exists.mp (hall 0 0)
    have hmem : q ∈ ((List.range n).flatMap fun i => (List.range n).map (g i)).filterMap id :=
      List.mem_filterMap.mpr ⟨some q, mem_gridCells.mpr ⟨0, hn, 0, hn, hq⟩, rfl⟩
    exact Option.isSome_iff_exists.mp (List.isSome_max?_of_mem hmem)
  · rw [List.all_eq_true]
    intro c hc
    obtain ⟨i, hi, j, hj, hgc⟩ := mem_gridCells.mp hc
    rw [← hgc]
    exact hall i j

/-- Both feature-type ranges are non-degenerate. -/
theorem data_range_lt (ft : FeatureType) : (data_range ft).1 < (data_range ft).2 := by
  cases ft <;> norm_num [data_range]

/-- Defined density cells are non-negative. -/
theorem histogram2dDensity_nonneg {xr yr : ℚ × ℚ} {n : ℕ} {pts : List (ℚ × ℚ)}
    {i j : ℕ} {q : ℚ} (hx : xr.1 ≤ xr.2) (hy : yr.1 ≤ yr.2)
    (h : histogram2dDensity xr yr n pts i j = some q) : 0 ≤ q := by
  unfold histogram2dDensity at h
  split_ifs at h with hs
  obtain rfl : _ = q := Option.some.inj h
  refine div_nonneg (by positivity) ?_
  exact mul_nonneg (mul_nonneg (sub_nonneg.mpr hx) (sub_nonneg.mpr hy)) (Nat.cast_nonneg _)

/-- C9: with positive bin count and both class samples non-degenerate, the
shared display ceiling `max_density` equals the maximum, over both class
partitions, of the maximum cell of that class's normalized density grid — it
bounds every density cell and is attained at one — and each class's density
grid is computed from the same filtered, partitioned rows as its count grid:
cell for cell it is that class's raw count normalized by bin area and by that
class's in-range total. -/
theorem max_density_spec (df : List Row) (ft : FeatureType) (n : ℕ) (hn : 0 < n)
    (h0 : histTotal2d (data_range ft) (data_range ft) n (classPts df 0) ≠ 0)
    (h1 : histTotal2d (data_range ft) (data_range ft) n (classPts df 1) ≠ 0) :
    (∀ l i j q, (l = 0 ∨ l = 1) → i < n → j < n →
        hist_density df ft n l i j = some q → q ≤ max_density df ft n) ∧
    (∃ l i j, (l = 0 ∨ l = 1) ∧ i < n ∧ j < n ∧
        hist_density df ft n l i j = some (max_density df ft n)) ∧
    (∀ l i j, (l = 0 ∨ l = 1) →
        hist_density df ft n l i j
          = some ((cnt_pos_neg df ft n l i j : ℚ) * n * n /
              (((data_range ft).2 - (data_range ft).1)
                * ((data_range ft).2 - (data_range ft).1)
                * (histTotal2d (data_range ft) (data_range ft) n (classPts df l) : ℚ)))) := by
  have hw := (data_range_lt ft).le
  have hall0 : ∀ i j, (hist_density df ft n 0 i j).isSome := by
    intro i j
    simp [hist_density, histogram2dDensity, range_pair, h0]
  have hall1 : ∀ i j, (hist_density df ft n 1 i j).isSome := by
    intro i j
    simp [hist_density, histogram2dDensity, range_pair, h1]
  obtain ⟨m0, hm0⟩ := npMax2d_isSome hn hall0
  obtain ⟨m1, hm1⟩ := npMax2d_isSome hn hall1
  have hmd : max_density df ft n = max (max (-1) m0) m1 := by
    simp [max_density, hm0, hm1, pyMax]
  obtain ⟨i0, hi0, j0, hj0, hg0⟩ := npMax2d_attained hm0
  obtain ⟨i1, hi1, j1, hj1, hg1⟩ := npMax2d_attained hm1
  have hm0nonneg : 0 ≤ m0 := histogram2dDensity_nonneg hw hw hg0
  have hmax0 : max (-1 : ℚ) m0 = m0 := max_eq_right (le_trans (by norm_num) hm0nonneg)
  have hmd' : max_density df ft n = max m0 m1 := by rw [hmd, hmax0]
  refine ⟨?_, ?_, ?_⟩
  · intro l i j q hl hi hj hq
    rw [hmd']
    rcases hl with h | h
    · subst h
      exact le_trans (npMax2d_le hm0 hi hj hq) (le_max_left _ _)
    · subst h
      exact le_trans (npMax2d_le hm1 hi hj hq) (le_max_right _ _)
  · rcases max_choice m0 m1 with hc | hc
    · exact ⟨0, i0, j0, Or.inl rfl, hi0, hj0, by rw [hmd', hc]; exact hg0⟩
    · exact ⟨1, i1, j1, Or.inr rfl, hi1, hj1, by rw [hmd', hc]; exact hg1⟩
  · intro l i j hl
    rcases hl with h | h <;> subst h
    · simp [hist_density, histogram2dDensity, range_pair, cnt_pos_neg, h0]
    · simp [hist_density, histogram2dDensity, range_pair, cnt_pos_neg, h1]

/-- Witness for `max_density_spec` at a concrete input. -/
theorem max_density_spec_witness :
    0 < 2 ∧
    histTotal2d (data_range .CC) (data_range .CC) 2 (classPts dfBalanced 0) ≠ 0 ∧
    histTotal2d (data_range .CC) (data_range .CC) 2 (classPts dfBalanced 1) ≠ 0 ∧
    hist_density dfBalanced .CC 2 0 1 1
      = some ((cnt_pos_neg dfBalanced .CC 2 0 1 1 : ℚ) * ((2 : ℕ) : ℚ) * ((2 : ℕ) : ℚ) /
          (((data_range .CC).2 - (data_range .CC).1)
            * ((data_range .CC).2 - (data_range .CC).1)
            * (histTotal2d (data_range .CC) (data_range .CC) 2 (classPts dfBalanced 0) : ℚ))) :=
  ⟨by decide, by with_unfolding_all decide, by with_unfolding_all decide,
    (max_density_spec dfBalanced .CC 2 (by decide) (by with_unfolding_all decide)
        (by with_unfolding_all decide)).2.2 0 1 1 (Or.inl rfl)⟩

end Funmap
